import Mathlib

/-!
Verification development for the mongo-odbc-driver marshalling core.

Shallow embedding of:
- the BSON value model and the ToCData conversion trait of
  src/odbc/src/api/data.rs (to_f64, to_f32, to_i64, to_i32, to_bool and the
  string-to-number parsers they rely on);
- the output buffer writers set_output_string, set_output_wstring and
  set_output_fixed_data of the same file, with the caller-supplied raw
  pointers modelled as nullability flags and the written cells as values;
- the target-type dispatch of format_and_return_bson;
- the result-set cursors: MongoQuery of src/core/src/query.rs and the mock
  MongoQuery of src/core/src/mock_query.rs;
- the effect trace of MongoQuery::prepare and write_url of
  src/core/src/query.rs;
- the get-data-in-pieces transfer of the spec (section 4.2), whose
  implementation (the SQLGetData piece state) is not among the staged files.

Machine integers are modelled as Int/Nat with explicit wrapping or
saturation where the source casts; finite IEEE doubles are modelled by
their rational value (binary rounding is not modelled: no claim below
depends on a rounded double value, only on parse failure and on zero).
-/

/-- A 64-bit (or 32-bit) IEEE floating point value, modelled by the exact
rational it denotes when finite. -/
inductive F64 where
  | finite (q : ℚ)
  | inf
  | negInf
  | nan
deriving DecidableEq

/-- Truncation toward zero of a rational, as Rust float-to-int casts
truncate. Int division in Lean rounds toward zero, so num/den is exact. -/
def ratTrunc (q : ℚ) : Int := q.num / q.den

/-- Rust `as i64` on a double: saturating cast (NaN to 0). -/
def F64.as_i64 : F64 → Int
  | .nan => 0
  | .inf => 2 ^ 63 - 1
  | .negInf => -(2 ^ 63)
  | .finite q => max (-(2 ^ 63)) (min (ratTrunc q) (2 ^ 63 - 1))

/-- Rust `as i32` on a double: saturating cast (NaN to 0). -/
def F64.as_i32 : F64 → Int
  | .nan => 0
  | .inf => 2 ^ 31 - 1
  | .negInf => -(2 ^ 31)
  | .finite q => max (-(2 ^ 31)) (min (ratTrunc q) (2 ^ 31 - 1))

/-- The numeric value of an ASCII digit. -/
def digitVal (c : Char) : Nat := c.toNat - 48

/-- Fold a digit list into the natural number it writes in base 10. -/
def digitsToNat (cs : List Char) : Nat :=
  cs.foldl (fun acc c => acc * 10 + digitVal c) 0

/-- A leading sign: (negative?, rest). Rust integer and float parsers accept
one optional leading plus or minus. -/
def parseSign : List Char → Bool × List Char
  | '-' :: rest => (true, rest)
  | '+' :: rest => (false, rest)
  | cs => (false, cs)

/-- One or more ASCII digits making up the whole list, else none. -/
def parseDigits (cs : List Char) : Option Nat :=
  if cs ≠ [] ∧ cs.all Char.isDigit then some (digitsToNat cs) else none

/-- The syntax Rust's integer FromStr accepts: optional sign then one or
more digits, nothing else; the unbounded value. -/
def intFromStrSyntax (s : String) : Option Int :=
  let (neg, cs) := parseSign s.data
  match parseDigits cs with
  | some n => some (if neg then -(n : Int) else (n : Int))
  | none => none

/-- Rust i64::from_str: the integer syntax, then the 64-bit signed range. -/
def i64_from_str (s : String) : Option Int :=
  match intFromStrSyntax s with
  | some n => if -(2 ^ 63) ≤ n ∧ n ≤ 2 ^ 63 - 1 then some n else none
  | none => none

/-- Rust i32::from_str: the integer syntax, then the 32-bit signed range. -/
def i32_from_str (s : String) : Option Int :=
  match intFromStrSyntax s with
  | some n => if -(2 ^ 31) ≤ n ∧ n ≤ 2 ^ 31 - 1 then some n else none
  | none => none

/-- Mantissa of Rust's float grammar: Count, Count . Count?, or . Count;
the scaled integer value and the number of fraction digits. -/
def parseMantissa (cs : List Char) : Option (Nat × Nat) :=
  let intPart := cs.takeWhile Char.isDigit
  let rest := cs.dropWhile Char.isDigit
  match rest with
  | [] => if intPart = [] then none else some (digitsToNat intPart, 0)
  | '.' :: frac =>
      if frac.all Char.isDigit ∧ (intPart ≠ [] ∨ frac ≠ []) then
        some (digitsToNat (intPart ++ frac), frac.length)
      else none
  | _ => none

/-- Exponent of Rust's float grammar after the e: optional sign then one or
more digits. -/
def parseExponent (cs : List Char) : Option Int :=
  let (neg, ds) := parseSign cs
  match parseDigits ds with
  | some n => some (if neg then -(n : Int) else (n : Int))
  | none => none

/-- A finite float value from mantissa and exponent parts. -/
def mantissaExpValue (m : Nat) (scale : Nat) (e : Int) : ℚ :=
  (m : ℚ) * (10 : ℚ) ^ (e - (scale : Int))

/-- Rust f64::from_str (and f32::from_str) modelled over exact rationals:
optional sign, then inf, infinity or nan case-insensitively, or a decimal
number with optional exponent. Binary rounding and exponent overflow to
infinity are not modelled; the claims below use only parse failure. -/
def float_from_str (s : String) : Option F64 :=
  let cs := s.data.map Char.toLower
  let (neg, cs) := parseSign cs
  if cs = ['i', 'n', 'f'] ∨ cs = ['i', 'n', 'f', 'i', 'n', 'i', 't', 'y'] then
    some (if neg then F64.negInf else F64.inf)
  else if cs = ['n', 'a', 'n'] then some F64.nan
  else
    let mant := cs.takeWhile (fun c => c ≠ 'e')
    let rest := cs.dropWhile (fun c => c ≠ 'e')
    let exp : Option Int :=
      match rest with
      | [] => some 0
      | _ :: t => parseExponent t
    match parseMantissa mant, exp with
    | some (m, scale), some e =>
        some (F64.finite (if neg then -(mantissaExpValue m scale e) else mantissaExpValue m scale e))
    | _, _ => none

/-- The BSON value model (the bson crate's Bson enum as data.rs consumes
it). Byte payloads are lists of byte values. -/
inductive Bson where
  | null
  | undefined
  | boolean (b : Bool)
  | int32 (i : Int)
  | int64 (i : Int)
  | double (d : F64)
  | decimal128 (bytes : List Nat)
  | string (s : String)
  | binary (subtype : Nat) (bytes : List Nat)
  | objectId (bytes : List Nat)
  | dateTime (millis : Int)
  | array (elems : List Bson)
  | document (fields : List (String × Bson))
  | regularExpression (pattern : String) (options : String)
  | javaScriptCode (code : String)
  | javaScriptCodeWithScope (code : String) (scope : List (String × Bson))
  | timestamp (time : Nat) (increment : Nat)
  | symbol (s : String)
  | minKey
  | maxKey
  | dbPointer (namespaceName : String) (oid : List Nat)

/-- A BSON document: ordered field bindings. -/
abbrev Document := List (String × Bson)

/-- Document lookup: the first binding of the key, as the bson crate's
Document::get. -/
def Document.get : Document → String → Option Bson
  | [], _ => none
  | (k, v) :: rest, key => if k = key then some v else Document.get rest key

/-- The bson crate's ValueAccessError as get_document raises it. -/
inductive ValueAccessErr where
  | notPresent
  | unexpectedType
deriving DecidableEq

/-- Document::get_document: the field must exist and hold a document. -/
def Document.get_document (d : Document) (key : String) : Except ValueAccessErr Document :=
  match d.get key with
  | none => .error .notPresent
  | some (Bson.document dd) => .ok dd
  | some _ => .error .unexpectedType

/-- ToCData::to_f64 (src/odbc/src/api/data.rs 47-65): DateTime to its
millisecond count, Double identity, String via the float parser with 0.0 on
failure, Boolean to 1/0, integers widened, Decimal128 and every other
variant to 0.0. -/
def ToCData.to_f64 : Bson → F64
  | .dateTime d => .finite (d : ℚ)
  | .double f => f
  | .string s => (float_from_str s).getD (.finite 0)
  | .boolean b => .finite (if b then 1 else 0)
  | .int32 i => .finite (i : ℚ)
  | .int64 i => .finite (i : ℚ)
  | .decimal128 _ => .finite 0
  | _ => .finite 0

/-- ToCData::to_f32 (src/odbc/src/api/data.rs 67-85): same shape as to_f64
with the narrowing casts; the narrowing itself is modelled as exact. -/
def ToCData.to_f32 : Bson → F64
  | .dateTime d => .finite (d : ℚ)
  | .double f => f
  | .string s => (float_from_str s).getD (.finite 0)
  | .boolean b => .finite (if b then 1 else 0)
  | .int32 i => .finite (i : ℚ)
  | .int64 i => .finite (i : ℚ)
  | .decimal128 _ => .finite 0
  | _ => .finite 0

/-- ToCData::to_i64 (src/odbc/src/api/data.rs 87-105): DateTime to its
millisecond count, Double truncated, String via i64::from_str with 0 on
failure, Boolean to 1/0, Int32 widened, Int64 identity, Decimal128 and
every other variant to 0. -/
def ToCData.to_i64 : Bson → Int
  | .dateTime d => d
  | .double f => f.as_i64
  | .string s => (i64_from_str s).getD 0
  | .boolean b => if b then 1 else 0
  | .int32 i => i
  | .int64 i => i
  | .decimal128 _ => 0
  | _ => 0

/-- Rust `as i32` on an i64 value: wrapping cast. -/
def i64_as_i32 (n : Int) : Int := (n + 2 ^ 31) % 2 ^ 32 - 2 ^ 31

/-- ToCData::to_i32 (src/odbc/src/api/data.rs 107-125): as to_i64 with the
32-bit casts (DateTime and Int64 wrap, Double saturates). -/
def ToCData.to_i32 : Bson → Int
  | .dateTime d => i64_as_i32 d
  | .double f => f.as_i32
  | .string s => (i32_from_str s).getD 0
  | .boolean b => if b then 1 else 0
  | .int32 i => i
  | .int64 i => i64_as_i32 i
  | .decimal128 _ => 0
  | _ => 0

/-- ToCData::to_bool (src/odbc/src/api/data.rs 127-138): Double nonzero,
String equal to 1 or true, Boolean identity, integers nonzero, Decimal128
and every other variant false. -/
def ToCData.to_bool : Bson → Bool
  | .double f => decide (f ≠ .finite 0)
  | .string s => s = "1" || s = "true"
  | .boolean b => b
  | .int32 i => decide (i ≠ 0)
  | .int64 i => decide (i ≠ 0)
  | .decimal128 _ => false
  | _ => false

/-- ToCData::to_date (src/odbc/src/api/data.rs 140-147): the DateTime
millisecond count; every other variant falls to the epoch. -/
def ToCData.to_date : Bson → Int
  | .dateTime d => d
  | _ => 0

/-- UTF-8 encoding of one character. -/
def charUtf8 (c : Char) : List Nat :=
  let n := c.toNat
  if n < 0x80 then [n]
  else if n < 0x800 then [0xC0 + n / 0x40, 0x80 + n % 0x40]
  else if n < 0x10000 then
    [0xE0 + n / 0x1000, 0x80 + n / 0x40 % 0x40, 0x80 + n % 0x40]
  else
    [0xF0 + n / 0x40000, 0x80 + n / 0x1000 % 0x40, 0x80 + n / 0x40 % 0x40,
      0x80 + n % 0x40]

/-- message.bytes(): the UTF-8 bytes of a string. -/
def strUtf8 (s : String) : List Nat := (s.data.map charUtf8).flatten

/-- UTF-16 encoding of one character (one unit, or a surrogate pair). -/
def charUtf16 (c : Char) : List Nat :=
  let n := c.toNat
  if n < 0x10000 then [n]
  else [0xD800 + (n - 0x10000) / 0x400, 0xDC00 + (n - 0x10000) % 0x400]

/-- message.encode_utf16(): the UTF-16 units of a string. -/
def strUtf16 (s : String) : List Nat := (s.data.map charUtf16).flatten

/-- Rust `as i16` wrapping cast. -/
def int_as_i16 (n : Int) : Int := (n + 2 ^ 15) % 2 ^ 16 - 2 ^ 15

/-- The SqlReturn codes the embedded functions produce. -/
inductive SqlReturn where
  | success
  | successWithInfo
  | error
  | noData
deriving DecidableEq

/-- What one buffer-writer call did. The caller-owned output buffer and the
output-length slot are values, their raw pointers nullability flags;
nullDeref records that the call wrote through a null pointer (undefined
behavior in the source). -/
structure WriteResult where
  ret : SqlReturn
  buffer : List Nat
  lenSlot : Option Int
  nullDeref : Bool
deriving DecidableEq

/-- set_output_string (src/odbc/src/api/data.rs 365-403). With a null
output pointer: a non-null length slot receives 0; a null length slot is
dereferenced (the would-be write of message.len() as i16); either way the
call returns SUCCESS_WITH_INFO. Otherwise the message bytes are truncated
to the buffer (a trailing nul appended), the length slot, when non-null,
receives the count written without the nul, and the return is
SUCCESS_WITH_INFO exactly when num_chars < message_len. -/
def set_output_string (message : String) (outPtrNull : Bool) (buffer_len : Nat)
    (lenPtrNull : Bool) : WriteResult :=
  if outPtrNull then
    if ¬lenPtrNull then
      { ret := .successWithInfo, buffer := [], lenSlot := some 0, nullDeref := false }
    else
      { ret := .successWithInfo, buffer := [], lenSlot := none, nullDeref := true }
  else
    let message_u8 := strUtf8 message
    let message_len := message_u8.length
    let num_chars := min (message_len + 1) buffer_len
    if num_chars = 0 then
      { ret := .successWithInfo, buffer := [], lenSlot := none, nullDeref := false }
    else
      { ret := if num_chars < message_len then .successWithInfo else .success,
        buffer := message_u8.take (num_chars - 1) ++ [0],
        lenSlot := if ¬lenPtrNull then some (int_as_i16 (num_chars - 1)) else none,
        nullDeref := false }

/-- set_output_wstring (src/odbc/src/api/data.rs 289-326): as
set_output_string over UTF-16 units (the null-output branch would write
the UTF-16 unit count through the null length slot). -/
def set_output_wstring (message : String) (outPtrNull : Bool) (buffer_len : Nat)
    (lenPtrNull : Bool) : WriteResult :=
  if outPtrNull then
    if ¬lenPtrNull then
      { ret := .successWithInfo, buffer := [], lenSlot := some 0, nullDeref := false }
    else
      { ret := .successWithInfo, buffer := [], lenSlot := none, nullDeref := true }
  else
    let message_u16 := strUtf16 message
    let message_len := message_u16.length
    let num_chars := min (message_len + 1) buffer_len
    if num_chars = 0 then
      { ret := .successWithInfo, buffer := [], lenSlot := none, nullDeref := false }
    else
      { ret := if num_chars < message_len then .successWithInfo else .success,
        buffer := message_u16.take (num_chars - 1) ++ [0],
        lenSlot := if ¬lenPtrNull then some (int_as_i16 (num_chars - 1)) else none,
        nullDeref := false }

/-- set_output_fixed_data (src/odbc/src/api/data.rs 337-354), the fixed
value given by its bytes. With a null output pointer: a non-null length
slot receives 0; a null length slot is dereferenced (the would-be write of
size_of T); SUCCESS_WITH_INFO either way. Otherwise the whole value is
copied, the buffer length is ignored, the length slot is never written,
and the return is SUCCESS. -/
def set_output_fixed_data (data : List Nat) (outPtrNull : Bool)
    (buffer_len : Int) (lenPtrNull : Bool) : WriteResult :=
  if outPtrNull then
    if ¬lenPtrNull then
      { ret := .successWithInfo, buffer := [], lenSlot := some 0, nullDeref := false }
    else
      { ret := .successWithInfo, buffer := [], lenSlot := none, nullDeref := true }
  else
    { ret := .success, buffer := data, lenSlot := none, nullDeref := false }

/-- The C target-type codes format_and_return_bson inspects (odbc_sys
CDataType values named in data.rs or in the api tests). -/
inductive CDataType where
  | char
  | wchar
  | bit
  | double
  | float
  | sBigInt
  | numeric
  | sLong
  | timeStamp
  | typeTimestamp
  | time
  | typeTime
  | date
  | typeDate
  | uBigInt
  | uLong
  | guid
  | binary
deriving DecidableEq

/-- Which conversion a target type is dispatched to. -/
inductive TargetConv where
  | asString
  | asWString
  | asBool
  | asF64
  | asF32
  | asI64
  | asI32
  | asTimestampStruct
  | asTimeStruct
  | asDateStruct
  | unimplementedError
deriving DecidableEq

/-- The dispatch of format_and_return_bson (src/odbc/src/api/data.rs
157-235): each match arm names the ToCData conversion it applies before
writing; a target with no arm falls to the catch-all, which pushes the
diagnostic Unimplemented unimplemented-data-type and returns ERROR. -/
def format_and_return_bson_dispatch : CDataType → TargetConv
  | .char | .binary => .asString
  | .wchar => .asWString
  | .bit => .asBool
  | .double => .asF64
  | .float => .asF32
  | .sBigInt | .numeric => .asI64
  | .sLong => .asI32
  | .timeStamp | .typeTimestamp => .asTimestampStruct
  | .time | .typeTime => .asTimeStruct
  | .date | .typeDate => .asDateStruct
  | _ => .unimplementedError

/-- Result-set column metadata as the cursors read it: the owning table
name and the column name. The other MongoColMetadata fields (declared
schema type, nullability) are not read by any operation modelled here. -/
structure MongoColMetadata where
  table_name : String
  col_name : String

/-- The error values the cursor operations produce. panicked marks a Rust
panic (an out-of-bounds index). -/
inductive QueryError where
  | invalidCursorState
  | colIndexOutOfBounds (col : Nat)
  | valueAccess (col : Nat) (e : ValueAccessErr)
  | statementNotExecuted
  | panicked
deriving DecidableEq

/-- Modelled from the spec: MongoStatement::get_col_metadata resolves a
stable 1-based column index equal to array index + 1 into the sorted
metadata, and an out-of-range index fails with ColumnIndexOutOfBounds. The
trait default implementing this lives in the core stmt module, which is
not among the staged files. -/
def get_col_metadata (metadata : List MongoColMetadata) (col_index : Nat) :
    Except QueryError MongoColMetadata :=
  if col_index = 0 then .error (.colIndexOutOfBounds col_index)
  else
    match metadata.get? (col_index - 1) with
    | some md => .ok md
    | none => .error (.colIndexOutOfBounds col_index)

namespace query

/-- MongoQuery of src/core/src/query.rs as get_value reads it: the current
deserialized row (None before the first advance and after exhaustion) and
the sorted column metadata. The live network cursor is not modelled. -/
structure MongoQuery where
  current : Option Document
  resultset_metadata : List MongoColMetadata

/-- MongoQuery::get_value (src/core/src/query.rs 125-135): requires a
current row (InvalidCursorState otherwise), resolves the column index
(ColumnIndexOutOfBounds otherwise), fetches the top-level table document,
and yields the named field (None when absent). The requested target type
plays no part here. -/
def MongoQuery.get_value (q : MongoQuery) (col_index : Nat) :
    Except QueryError (Option Bson) :=
  match q.current with
  | none => .error .invalidCursorState
  | some current =>
    match get_col_metadata q.resultset_metadata col_index with
    | .error _ => .error (.colIndexOutOfBounds col_index)
    | .ok md =>
      match current.get_document md.table_name with
      | .error e => .error (.valueAccess col_index e)
      | .ok datasource => .ok (datasource.get md.col_name)

end query

namespace mock_query

/-- The mock MongoQuery of src/core/src/mock_query.rs: the whole result
set, the sorted metadata, and the current index (0 at construction). -/
structure MongoQuery where
  resultset : List Document
  resultset_metadata : List MongoColMetadata
  current : Nat

/-- MongoQuery::new (src/core/src/mock_query.rs 24-30). -/
def MongoQuery.new (resultset : List Document)
    (resultset_metadata : List MongoColMetadata) : MongoQuery :=
  { resultset, resultset_metadata, current := 0 }

/-- MongoQuery::next (src/core/src/mock_query.rs 36-42): pre-increments
current, then reports whether current < resultset.len(). The source always
returns Ok; the Bool is its payload. -/
def MongoQuery.next (q : MongoQuery) : MongoQuery × Bool :=
  let q := { q with current := q.current + 1 }
  (q, decide (q.current < q.resultset.length))

/-- MongoQuery::get_value (src/core/src/mock_query.rs 46-53): resolves the
column index, then indexes resultset[current] with no cursor-state check
(a Rust panic when current is out of bounds, modelled as the error
panicked), fetches the table document and yields the named field. -/
def MongoQuery.get_value (q : MongoQuery) (col_index : Nat) :
    Except QueryError (Option Bson) :=
  match get_col_metadata q.resultset_metadata col_index with
  | .error e => .error e
  | .ok md =>
    match q.resultset.get? q.current with
    | none => .error .panicked
    | some row =>
      match row.get_document md.table_name with
      | .error e => .error (.valueAccess col_index e)
      | .ok datasource => .ok (datasource.get md.col_name)

end mock_query

/-- One row of the fixture of sql_fetch_and_more_results_basic_functionality
(src/odbc/src/api/data_tests.rs 295-299): the document holding b under a. -/
def rowAB (n : Int) : Document := [("a", Bson.document [("b", Bson.int32 n)])]

/-- The three-row mock query of that test: rows b = 42, 43, 44 with the one
Int column (table a, column b). -/
def threeRowQuery : mock_query.MongoQuery :=
  mock_query.MongoQuery.new [rowAB 42, rowAB 43, rowAB 44]
    [{ table_name := "a", col_name := "b" }]

/-- An observable side effect of the query module, in program order. -/
inductive Effect where
  | fileCreate (path : String)
  | fileWriteBytes (path : String) (data : String)
  | fileFlush (path : String)
  | connectWithUri (uri : String)
  | findOne (db : String) (coll : String)
  | printLine
  | runCommand (db : String) (cmd : String)
deriving DecidableEq

/-- The connection string write_url's caller passes to Client::with_uri_str
(src/core/src/query.rs 58), embedded OIDC client credentials included. -/
def hardCodedUri : String :=
  "mongodb://localhost:27017/test?authMechanism=MONGODB-OIDC&authMechanismProperties=ISSUER_DOMAIN:https://dev-bzkxrnbykc6fb01i.us.auth0.com,CLIENT_ID:80OQwYGwA5JkCFnnQIdcITg3zlOjWfTO,CLIENT_SECRET:-hynidlScgOCoq0FAHreppw-jPRWUzXQ0y9NRJYckF5G6sMfOjZA5B8uvzCenXm0"

/-- The log file write_url creates. -/
def logPath : String := "C:\\Logs\\test.txt"

/-- write_url (src/core/src/query.rs 30-43): creates the log file, writes
the url and a fixed line, and flushes. -/
def write_url (url : String) : List Effect :=
  [.fileCreate logPath, .fileWriteBytes logPath url,
    .fileWriteBytes logPath "Rust is awesome.\n", .fileFlush logPath]

/-- MongoQuery::prepare (src/core/src/query.rs 47-90) as its effect trace.
With no current database it returns Err(NoDatabase) before any effect.
Otherwise, in program order: write_url(test1); a second client opened on
the hard-coded URI; a find_one against its test.array collection; the
println of the result; write_url(test2); then the sqlGetResultSchema
command on the caller-provided connection, the only effect the spec
admits. -/
def prepare_effects (current_db : Option String) (query : String) : List Effect :=
  match current_db with
  | none => []
  | some db =>
    write_url "test1" ++
      [.connectWithUri hardCodedUri, .findOne "test" "array", .printLine] ++
      write_url "test2" ++
      [.runCommand db ("sqlGetResultSchema " ++ query)]

/-- The tri-state result of one piece-transfer call. -/
inductive TransferStatus where
  | success
  | successWithTruncation
  | noData
deriving DecidableEq

/-- What one piece-transfer call did: its status, the units copied into the
caller buffer, the length it reported, and the piece state afterwards. -/
structure PieceCall (α : Type) where
  status : TransferStatus
  copied : List α
  reported : Nat
  deliveredAfter : Nat

/-- Modelled from the spec: one buffer-bounded read of a variable-length
value (spec 4.2). The get-data-in-pieces state machine of SQLGetData lives
in the odbc api functions module, which is not among the staged files;
only its tests are (sql_get_wstring_data_by_pieces,
sql_get_string_data_by_pieces, sql_get_binary_data_by_pieces). Per the
spec: when the remaining length is exactly zero at call start, NoData
without writing; a capacity of zero returns SuccessWithTruncation
immediately with the full required length and no write; otherwise the call
copies as much of the remaining undelivered payload as fits, advances the
state by the copied amount, and reports the total remaining length before
this copy, truncation flagged when something is left. -/
def pieceGet {α : Type} (payload : List α) (delivered : Nat) (cap : Nat) :
    PieceCall α :=
  let remaining := payload.length - delivered
  if remaining = 0 then
    { status := .noData, copied := [], reported := 0, deliveredAfter := delivered }
  else if cap = 0 then
    { status := .successWithTruncation, copied := [], reported := remaining,
      deliveredAfter := delivered }
  else
    let n := min cap remaining
    { status := if n < remaining then .successWithTruncation else .success,
      copied := (payload.drop delivered).take n,
      reported := remaining,
      deliveredAfter := delivered + n }

/-- Modelled from the spec: drive pieceGet from the given state until it
reports NoData, concatenating the copied chunks. fuel bounds the loop; any
fuel at least the remaining length is enough when the capacity is
positive. -/
def pieceDrain {α : Type} (payload : List α) (cap : Nat) :
    Nat → Nat → List α
  | 0, _ => []
  | fuel + 1, delivered =>
    let c := pieceGet payload delivered cap
    match c.status with
    | .noData => []
    | _ => c.copied ++ pieceDrain payload cap fuel c.deliveredAfter

/-- C1: for the three-row mock result set, the code returns true on the
first and second advance and false already on the THIRD, because next
pre-increments current starting from 0; the claim (with the test
sql_fetch_and_more_results_basic_functionality) expects three successful
advances and a fourth returning no-row. This theorem evaluates the code at
the failing input. -/
theorem mock_third_advance_returns_no_row :
    (threeRowQuery.next).2 = true ∧
    (threeRowQuery.next.1.next).2 = true ∧
    (threeRowQuery.next.1.next.1.next).2 = false :=
  ⟨rfl, rfl, rfl⟩

/-- C2: the real cursor (query.rs get_value) does fail with
InvalidCursorState for every column index whenever no row is current
(before the first advance and after exhaustion), independently of the
requested target kind, which get_value never inspects; but the mock
(mock_query.rs get_value) has no cursor-state check: called before any
next it returns row 0's data, Ok(Some(Int32 42)) on the three-row
fixture. -/
theorem get_value_unpositioned_cursor :
    (∀ (md : List MongoColMetadata) (i : Nat),
        query.MongoQuery.get_value { current := none, resultset_metadata := md } i
          = .error .invalidCursorState) ∧
    threeRowQuery.get_value 1 = .ok (some (Bson.int32 42)) :=
  ⟨fun _ _ => rfl, rfl⟩

/-- C3: with a null output pointer and a non-null length slot, each writer
returns SUCCESS_WITH_INFO but stores 0 in the length slot, not the
would-be length (12 bytes for the message used here; size_of T for fixed
data): the null-output branch tests the length pointer the wrong way
round, so the length-reporting write sits on the unreachable-safely arm. -/
theorem null_out_ptr_stores_zero_not_length :
    (set_output_string "hello world!" true 100 false).ret = .successWithInfo ∧
    (set_output_string "hello world!" true 100 false).lenSlot = some 0 ∧
    (set_output_wstring "hello world!" true 100 false).lenSlot = some 0 ∧
    (set_output_fixed_data [42, 0, 0, 0, 0, 0, 0, 0] true 10 false).lenSlot = some 0 ∧
    (strUtf8 "hello world!").length = 12 :=
  ⟨rfl, rfl, rfl, rfl, rfl⟩

/-- C4: when the output pointer and the length slot are both null, every
writer reaches the else arm of the inverted null test and writes the
would-be length through the NULL length pointer: a null dereference,
not the claimed effect-free return. -/
theorem both_ptrs_null_derefs_length_ptr :
    (set_output_string "hello world!" true 100 true).nullDeref = true ∧
    (set_output_wstring "hello world!" true 100 true).nullDeref = true ∧
    (set_output_fixed_data [42, 0, 0, 0, 0, 0, 0, 0] true 10 true).nullDeref = true :=
  ⟨rfl, rfl, rfl⟩

/-- C5: on every piece-transfer call that is not NoData, the reported
length is the total remaining undelivered length before the copy, and a
reported length exceeding the units actually copied implies undelivered
payload is still left afterwards. -/
theorem piece_reported_is_remaining_before_copy {α : Type} (payload : List α)
    (delivered cap : Nat)
    (h : (pieceGet payload delivered cap).status ≠ TransferStatus.noData) :
    (pieceGet payload delivered cap).reported = payload.length - delivered ∧
    ((pieceGet payload delivered cap).copied.length
        < (pieceGet payload delivered cap).reported →
      payload.length - (pieceGet payload delivered cap).deliveredAfter ≠ 0) := by
  unfold pieceGet at *
  by_cases h0 : payload.length - delivered = 0
  · simp [h0] at h
  · by_cases hc : cap = 0
    · simp [h0, hc]
    · simp [h0, hc, List.length_take, List.length_drop]
      omega

/-- C5 witness: payload of three units read with capacity 2 reports 3,
copies 2, and one unit remains. -/
theorem piece_reported_witness :
    (pieceGet ([1, 2, 3] : List Nat) 0 2).reported = ([1, 2, 3] : List Nat).length - 0 ∧
    ((pieceGet ([1, 2, 3] : List Nat) 0 2).copied.length
        < (pieceGet ([1, 2, 3] : List Nat) 0 2).reported →
      ([1, 2, 3] : List Nat).length - (pieceGet ([1, 2, 3] : List Nat) 0 2).deliveredAfter ≠ 0) :=
  piece_reported_is_remaining_before_copy [1, 2, 3] 0 2 (by decide)

/-- Driving pieceGet with positive capacity and enough fuel delivers
exactly the undelivered suffix. -/
theorem pieceDrain_drop {α : Type} (payload : List α) (cap : Nat)
    (hcap : 0 < cap) :
    ∀ (fuel delivered : Nat), payload.length - delivered ≤ fuel →
      pieceDrain payload cap fuel delivered = payload.drop delivered := by
  intro fuel
  induction fuel with
  | zero =>
    intro d hd
    have hlen : payload.length ≤ d := by omega
    simp [pieceDrain, List.drop_eq_nil_of_le hlen]
  | succ n ih =>
    intro d hd
    by_cases h0 : payload.length - d = 0
    · have hlen : payload.length ≤ d := by omega
      simp [pieceDrain, pieceGet, h0, List.drop_eq_nil_of_le hlen]
    · have hc : cap ≠ 0 := by omega
      have hstep : 1 ≤ min cap (payload.length - d) := by omega
      have hrec : pieceDrain payload cap n (d + min cap (payload.length - d))
          = payload.drop (d + min cap (payload.length - d)) := ih _ (by omega)
      by_cases hlt : min cap (payload.length - d) < payload.length - d
      · simp [pieceDrain, pieceGet, h0, hc, hlt, hrec]
      · simp [pieceDrain, pieceGet, h0, hc, hlt, hrec]

/-- C6: for any payload and positive chunk capacity, repeatedly reading
pieces of that capacity until NoData and concatenating the copied chunks
reproduces exactly what one single sufficiently large read copies. -/
theorem piece_round_trip_on_pieces {α : Type} (payload : List α) (cap : Nat)
    (hcap : 0 < cap) :
    pieceDrain payload cap (payload.length + 1) 0 =
      (pieceGet payload 0 (payload.length + 1)).copied := by
  rw [pieceDrain_drop payload cap hcap (payload.length + 1) 0 (by omega)]
  by_cases h0 : payload.length = 0
  · simp [pieceGet, h0, List.eq_nil_of_length_eq_zero h0]
  · have : min (payload.length + 1) payload.length = payload.length := by omega
    simp [pieceGet, h0, this]

/-- C6 witness: the binary fixture bytes read in pieces of two units. -/
theorem piece_round_trip_witness :
    pieceDrain ([5, 6, 42] : List Nat) 2 (([5, 6, 42] : List Nat).length + 1) 0 =
      (pieceGet ([5, 6, 42] : List Nat) 0 (([5, 6, 42] : List Nat).length + 1)).copied :=
  piece_round_trip_on_pieces [5, 6, 42] 2 (by decide)

/-- C7: the conversion functions are infallible and their catch-all maps
Array, Document, ObjectId, Regex, MaxKey, MinKey (and the other
non-numeric variants) to 0, 0.0 and false with no UnsupportedConversion
error, the error the claim and the tests sql_get_i64_data and
sql_get_bit_data require. This theorem evaluates the code at those
inputs. -/
theorem unsupported_variants_silently_coerce_to_zero :
    ToCData.to_i64 (Bson.array [Bson.int32 1, Bson.int32 2, Bson.int32 3]) = 0 ∧
    ToCData.to_i64 Bson.maxKey = 0 ∧
    ToCData.to_i32 (Bson.document [("x", Bson.int32 42)]) = 0 ∧
    ToCData.to_f64 Bson.minKey = F64.finite 0 ∧
    ToCData.to_bool (Bson.objectId [99, 68]) = false ∧
    ToCData.to_bool (Bson.regularExpression "hello .* world" "") = false :=
  ⟨rfl, rfl, rfl, rfl, rfl, rfl⟩

/-- C8: no arm of format_and_return_bson handles an unsigned integer
target: UBigInt and ULong fall to the catch-all, which reports
Unimplemented and returns ERROR. Int64(-1) is never wrapped to an unsigned
value (the only implemented big-integer path, to_i64, carries -1
unchanged), but the failure is the wrong one: the claim and the test
sql_get_u64_data require IntegralOverflow. -/
theorem unsigned_target_falls_to_unimplemented :
    format_and_return_bson_dispatch CDataType.uBigInt = TargetConv.unimplementedError ∧
    format_and_return_bson_dispatch CDataType.uLong = TargetConv.unimplementedError ∧
    ToCData.to_i64 (Bson.int64 (-1)) = -1 :=
  ⟨rfl, rfl, rfl⟩

/-- C9: a string that parses neither as an integer nor as a float coerces
to 0 under every numeric conversion of the engine, with no failure: the
string arms call the target parser and fall back to zero. -/
theorem unparsable_string_coerces_to_zero (s : String)
    (hi : intFromStrSyntax s = none) (hf : float_from_str s = none) :
    ToCData.to_i64 (Bson.string s) = 0 ∧
    ToCData.to_i32 (Bson.string s) = 0 ∧
    ToCData.to_f64 (Bson.string s) = F64.finite 0 ∧
    ToCData.to_f32 (Bson.string s) = F64.finite 0 := by
  have h64 : i64_from_str s = none := by simp [i64_from_str, hi]
  have h32 : i32_from_str s = none := by simp [i32_from_str, hi]
  simp [ToCData.to_i64, ToCData.to_i32, ToCData.to_f64, ToCData.to_f32,
    h64, h32, hf]

/-- C9 witness: the fixture string hello world! of sql_get_i64_data. -/
theorem unparsable_string_witness :
    ToCData.to_i64 (Bson.string "hello world!") = 0 ∧
    ToCData.to_i32 (Bson.string "hello world!") = 0 ∧
    ToCData.to_f64 (Bson.string "hello world!") = F64.finite 0 ∧
    ToCData.to_f32 (Bson.string "hello world!") = F64.finite 0 :=
  unparsable_string_coerces_to_zero "hello world!" (by decide) (by decide)

/-- C10: the effect trace of prepare contains the creation of (and writes
to) the local log file and the opening of a second connection on the
hard-coded credential-bearing URI, for any database and query: the claim
(and the spec design note calling this code a defect) say prepare derives
metadata only through the caller-provided connection, with no local file
write and no hard-coded connection. This theorem evaluates the code at a
concrete input. -/
theorem prepare_writes_log_and_opens_hardcoded_connection :
    Effect.fileCreate logPath ∈ prepare_effects (some "test") "select 1" ∧
    Effect.connectWithUri hardCodedUri ∈ prepare_effects (some "test") "select 1" := by
  exact ⟨by simp [prepare_effects, write_url], by simp [prepare_effects, write_url]⟩
